import Mathlib

/-!
Verification of the request-construction and orchestration logic of
`src/2_Scripts/GEE_Python/landsat_nvdi.py`, a script that builds
cloud-masked, NDVI-augmented Landsat composites on a remote
geospatial-analysis platform (Google Earth Engine) and submits one
asynchronous export task per configured year.

The remote platform executes lazily and per pixel; the embedding models
every image at a single generic pixel location: an image is its band
values at that location together with a visibility flag (the mask) and
an optional clip footprint.  Collections are lists of such images.
Python `print` calls are modelled as returned log lists, Python
exceptions as an `Except` error monad, and the remote service (raw
collection contents, task start outcomes) as an explicit environment.
-/

/-- Python exception values as far as this script distinguishes them:
a `KeyError` from a dictionary access carrying the missing key, or any
other exception carrying a message. -/
inductive PyErr where
  | keyError : String → PyErr
  | exc : String → PyErr
deriving DecidableEq

/-- Rendering of an exception when interpolated into an error message,
standing in for Python's `str(e)`. -/
def PyErr.msg : PyErr → String
  | .keyError k => "KeyError: " ++ k
  | .exc m => "exc: " ++ m

deriving instance DecidableEq for Except

/-- Python dictionary access `d[k]` on a string-keyed dictionary:
returns the value or raises `KeyError(k)`. -/
def dictLookup {α : Type} (d : List (String × α)) (k : String) : Except PyErr α :=
  match List.lookup k d with
  | some v => .ok v
  | none => .error (.keyError k)

/-- The per-sensor band-name record stored in `SENSOR_BANDS`:
near-infrared, red and quality-assurance band names. -/
structure BandNames where
  nir : String
  red : String
  qa : String
deriving DecidableEq

/-- An axis-aligned geographic rectangle, the model of
`ee.Geometry.Rectangle([xmin, ymin, xmax, ymax])`. -/
structure Rect where
  xmin : ℚ
  ymin : ℚ
  xmax : ℚ
  ymax : ℚ
deriving DecidableEq

/-- The coordinate ring of the rectangle's GeoJSON polygon, the model
of `rect.toGeoJSON()['coordinates']` (one closed ring of corner
points). -/
def Rect.coordinates (r : Rect) : List (List (ℚ × ℚ)) :=
  [[(r.xmin, r.ymin), (r.xmax, r.ymin), (r.xmax, r.ymax), (r.xmin, r.ymax),
    (r.xmin, r.ymin)]]

/-- A remote image, viewed at one generic pixel location: acquisition
date (ISO `YYYY-MM-DD` string, so lexicographic order is chronological),
an association list from band name to the band's value at the location,
a visibility flag (`false` means the pixel is masked, i.e. excluded
from reductions rather than deleted), and the clip footprint if any. -/
structure EEImage where
  date : String
  bands : List (String × ℚ)
  vis : Bool
  footprint : Option Rect
deriving DecidableEq

/-- Band selection `image.select(names)`: keeps the named bands, in the
requested order, with their values at the modelled location. -/
def EEImage.select (img : EEImage) (names : List String) : EEImage :=
  { img with bands := names.filterMap (fun b => (List.lookup b img.bands).map (fun v => (b, v))) }

/-- Bitwise AND of a band value with a constant mask, the pixel-level
model of `image.bitwiseAnd(m)`.  It is meaningful on the nonnegative
integral values of a quality-assurance band (the only use in the
script), where the rational value is exactly a natural number. -/
def ratBitwiseAnd (v : ℚ) (m : Nat) : ℚ :=
  ((v.num.toNat &&& m : Nat) : ℚ)

/-- Pixel-level `image.bitwiseAnd(m)` applied to every band. -/
def EEImage.bitwiseAnd (img : EEImage) (m : Nat) : EEImage :=
  { img with bands := img.bands.map (fun p => (p.1, ratBitwiseAnd p.2 m)) }

/-- Pixel-level `image.eq(c)`: per band, `1` where the value equals `c`
and `0` elsewhere. -/
def EEImage.eq (img : EEImage) (c : ℚ) : EEImage :=
  { img with bands := img.bands.map (fun p => (p.1, if p.2 = c then (1 : ℚ) else 0)) }

/-- Pixel-level logical `image.And(other)`: per band, `1` where both
operands are nonzero and `0` elsewhere. -/
def EEImage.And (img other : EEImage) : EEImage :=
  { img with bands := img.bands.zipWith (fun p q => (p.1, if p.2 ≠ 0 ∧ q.2 ≠ 0 then (1 : ℚ) else 0)) other.bands }

/-- Pixel-level `image.updateMask(mask)`: the pixel stays visible only
where it was visible and the mask image is nonzero (for the script's
single-band masks, the single mask value is nonzero).  Band values are
not changed: masking hides, it does not delete. -/
def EEImage.updateMask (img mask : EEImage) : EEImage :=
  { img with vis := img.vis && mask.bands.all (fun p => decide (p.2 ≠ 0)) }

/-- Pixel-level `image.normalizedDifference([b1, b2])`: a single band
named `nd` holding `(b1 - b2) / (b1 + b2)`.  A zero denominator is the
remote platform's concern (the spec delegates it); rational division
then yields the junk value `0` here, and no claim depends on it. -/
def EEImage.normalizedDifference (img : EEImage) (names : List String) : EEImage :=
  match names with
  | [b1, b2] =>
    let v1 := (List.lookup b1 img.bands).getD 0
    let v2 := (List.lookup b2 img.bands).getD 0
    { img with bands := [("nd", (v1 - v2) / (v1 + v2))] }
  | _ => { img with bands := [] }

/-- Pixel-level `image.rename(names)`: renames the bands positionally. -/
def EEImage.rename (img : EEImage) (names : List String) : EEImage :=
  { img with bands := names.zipWith (fun n p => (n, p.2)) img.bands }

/-- Pixel-level `image.addBands(other)`: appends the other image's
bands after the original bands, which are all retained. -/
def EEImage.addBands (img other : EEImage) : EEImage :=
  { img with bands := img.bands ++ other.bands }

/-- Pixel-level `image.clip(region)`: restricts the footprint. -/
def EEImage.clip (img : EEImage) (r : Rect) : EEImage :=
  { img with footprint := some r }

/-- Sorted insertion, for the median computation. -/
def insertSorted (x : ℚ) : List ℚ → List ℚ
  | [] => [x]
  | y :: ys => if x ≤ y then x :: y :: ys else y :: insertSorted x ys

/-- Insertion sort on rationals, for the median computation. -/
def sortQ : List ℚ → List ℚ
  | [] => []
  | x :: xs => insertSorted x (sortQ xs)

/-- Median of a list of values: middle element of the sorted list, or
the mean of the two middle elements for an even length; `none` on the
empty list. -/
def medianOf (l : List ℚ) : Option ℚ :=
  let s := sortQ l
  if s.length = 0 then none
  else if s.length % 2 = 1 then s.get? (s.length / 2)
  else match s.get? (s.length / 2 - 1), s.get? (s.length / 2) with
    | some a, some b => some ((a + b) / 2)
    | _, _ => none

/-- The values a band contributes to a reduction over a collection:
one value per image that is visible (unmasked) at the modelled location
and carries the band.  Masked images contribute nothing. -/
def bandValuesFor (b : String) (coll : List EEImage) : List ℚ :=
  coll.filterMap (fun img => if img.vis then List.lookup b img.bands else none)

/-- Per-band median over a collection at the modelled location. -/
def medianBand (b : String) (coll : List EEImage) : Option ℚ :=
  medianOf (bandValuesFor b coll)

/-- All band names occurring in a collection, without duplicates. -/
def bandNamesOf (coll : List EEImage) : List String :=
  (coll.map (fun img => img.bands.map Prod.fst)).flatten.dedup

/-- Pixel-level `collection.median()`: a composite image whose bands
are the per-band medians over the visible images of the collection. -/
def collectionMedian (coll : List EEImage) : EEImage :=
  { date := ""
    bands := (bandNamesOf coll).map (fun b => (b, (medianBand b coll).getD 0))
    vis := coll.any (fun img => img.vis)
    footprint := none }

/-- A submitted export request, the model of
`ee.batch.Export.image.toDrive(...)` with the keyword arguments the
script passes.  `maxPixels` is the float literal `1e13`, an exactly
representable integer. -/
structure ExportTask where
  image : EEImage
  description : String
  folder : String
  fileNamePrefix : String
  region : List (List (ℚ × ℚ))
  scale : Nat
  crs : String
  maxPixels : Nat
deriving DecidableEq

/-- The remote platform, as the script observes it: `fetch` is the
content (or failure) of `ee.ImageCollection(collection_id)` for each
collection identifier, and `start` is the outcome of `task.start()` for
a constructed export task. -/
structure Env where
  fetch : String → Except PyErr (List EEImage)
  start : ExportTask → Except PyErr Unit

-- ------------------------ USER CONFIGURATIONS ------------------------

/-- Python `list(range(start, stop, step))` for a positive step. -/
def pythonRange (start stop step : Nat) : List Nat :=
  (List.range ((stop - start + step - 1) / step)).map (fun i => start + step * i)

/-- Years to analyze: every 5 years from 1985 to 2020 inclusive,
`START_YEARS = list(range(1985, 2021, 5))`. -/
def START_YEARS : List Nat := pythonRange 1985 2021 5

/-- Region of interest: `ee.Geometry.Rectangle([-76.5, 35.5, -75.5, 36.5])`. -/
def REGION : Rect := { xmin := -76.5, ymin := 35.5, xmax := -75.5, ymax := 36.5 }

/-- Output folder in Google Drive. -/
def DRIVE_FOLDER : String := "GEE_Exports"

/-- Projection scale in meters. -/
def SCALE : Nat := 30

/-- Coordinate reference system. -/
def CRS : String := "EPSG:4326"

/-- Sensor key to remote collection identifier,
`LANDSAT_COLLECTIONS = {...}`. -/
def LANDSAT_COLLECTIONS : List (String × String) :=
  [("LANDSAT_5", "LANDSAT/LT05/C02/T1_L2"),
   ("LANDSAT_7", "LANDSAT/LE07/C02/T1_L2"),
   ("LANDSAT_8", "LANDSAT/LC08/C02/T1_L2")]

/-- Sensor key to sensor-specific band names, `SENSOR_BANDS = {...}`. -/
def SENSOR_BANDS : List (String × BandNames) :=
  [("LANDSAT_5", { nir := "SR_B4", red := "SR_B3", qa := "QA_PIXEL" }),
   ("LANDSAT_7", { nir := "SR_B4", red := "SR_B3", qa := "QA_PIXEL" }),
   ("LANDSAT_8", { nir := "SR_B5", red := "SR_B4", qa := "QA_PIXEL" })]

-- -------------------------------------------------------------

/-- The script's `mask_clouds(image, sensor_key)`: selects the sensor's
quality-assurance band, tests bit 3 (cloud shadow) and bit 5 (cloud)
each for equality with zero, combines the tests with logical AND, and
applies the result as a visibility mask on the original image.  The
dictionary access `SENSOR_BANDS[sensor_key]` may raise `KeyError`. -/
def mask_clouds (image : EEImage) (sensor_key : String) : Except PyErr EEImage := do
  let sb ← dictLookup SENSOR_BANDS sensor_key
  let qa := image.select [sb.qa]
  let cloud_shadow_bit_mask : Nat := 1 <<< 3
  let clouds_bit_mask : Nat := 1 <<< 5
  let mask := ((qa.bitwiseAnd cloud_shadow_bit_mask).eq 0).And
              ((qa.bitwiseAnd clouds_bit_mask).eq 0)
  .ok (image.updateMask mask)

/-- The script's `add_ndvi(image, sensor_key)`: computes
`(NIR - RED) / (NIR + RED)` from the sensor's configured band names via
`normalizedDifference`, renames the result band to `NDVI`, and appends
it to the original image.  The dictionary accesses may raise
`KeyError`. -/
def add_ndvi (image : EEImage) (sensor_key : String) : Except PyErr EEImage := do
  let sb ← dictLookup SENSOR_BANDS sensor_key
  let nir_band := sb.nir
  let red_band := sb.red
  let ndvi := (image.normalizedDifference [nir_band, red_band]).rename ["NDVI"]
  .ok (image.addBands ndvi)

/-- Lexicographic string order as a computable Boolean, via the
underlying character lists; it agrees with the `≤` order on `String`. -/
def strLeB (a b : String) : Bool := !(decide (b.data < a.data))

/-- Membership of an image's acquisition date in an inclusive date
range, under lexicographic (hence chronological) order on ISO date
strings. -/
def inDateRange (start_date end_date : String) (img : EEImage) : Bool :=
  strLeB start_date img.date && strLeB img.date end_date

/-- Date-range filter of the remote platform,
`collection.filterDate(start_date, end_date)`, modelled as the
inclusive calendar range the spec's interface section describes. -/
def dateFilter (coll : List EEImage) (start_date end_date : String) : List EEImage :=
  coll.filter (inDateRange start_date end_date)

/-- Mapping a client-side function that may raise over a collection,
the model of `collection.map(lambda img: f(img))`: the first raised
exception aborts the whole map. -/
def collMapE (f : EEImage → Except PyErr EEImage) : List EEImage → Except PyErr (List EEImage)
  | [] => .ok []
  | img :: rest => do
    let img' ← f img
    let rest' ← collMapE f rest
    .ok (img' :: rest')

/-- The body of the `try` block of `get_landsat_collection`: fetch the
remote collection, filter to the date range, then map cloud masking and
NDVI computation over it. -/
def fetchPipeline (env : Env) (collection_id sensor_key start_date end_date : String) :
    Except PyErr (List EEImage) := do
  let coll ← env.fetch collection_id
  let coll := dateFilter coll start_date end_date
  let coll ← collMapE (fun img => mask_clouds img sensor_key) coll
  let coll ← collMapE (fun img => add_ndvi img sensor_key) coll
  .ok coll

/-- The script's `get_landsat_collection(sensor_key, start_date,
end_date)`.  The dictionary access `LANDSAT_COLLECTIONS[sensor_key]`
happens before the `try` block, so its `KeyError` propagates; any
exception inside the pipeline is caught, logged, and replaced by an
empty collection.  Returns (log lines, collection). -/
def get_landsat_collection (env : Env) (sensor_key start_date end_date : String) :
    Except PyErr (List String × List EEImage) := do
  let collection_id ← dictLookup LANDSAT_COLLECTIONS sensor_key
  match fetchPipeline env collection_id sensor_key start_date end_date with
  | .ok collection => .ok ([], collection)
  | .error e =>
    .ok (["Error fetching collection " ++ sensor_key ++ " for dates " ++ start_date ++
          " to " ++ end_date ++ ": " ++ e.msg], [])

/-- The loop of `combine_collections`: starting from the empty
collection, merge each configured sensor's collection in turn. -/
def combineLoop (env : Env) (start_date end_date : String) :
    List String → List String × List EEImage → Except PyErr (List String × List EEImage)
  | [], acc => .ok acc
  | sensor_key :: rest, acc => do
    let sc ← get_landsat_collection env sensor_key start_date end_date
    combineLoop env start_date end_date rest (acc.1 ++ sc.1, acc.2 ++ sc.2)

/-- The script's `combine_collections(start_date, end_date)`: merges
the three configured sensors' collections for the date range, starting
from `ee.ImageCollection([])`. -/
def combine_collections (env : Env) (start_date end_date : String) :
    Except PyErr (List String × List EEImage) :=
  combineLoop env start_date end_date (LANDSAT_COLLECTIONS.map Prod.fst) ([], [])

/-- The script's `export_ndvi(year)`: builds the calendar-year date
range, combines the sensor collections, skips the year if the combined
collection is empty, otherwise reduces to a median composite restricted
to the `NDVI` band, clips to `REGION`, constructs the export task and
calls `task.start()`, catching a start failure.  Returns (log lines,
export tasks on which a start was requested). -/
def export_ndvi (env : Env) (year : Nat) : Except PyErr (List String × List ExportTask) := do
  let start_date := toString year ++ "-01-01"
  let end_date := toString year ++ "-12-31"
  let log0 := "Processing year: " ++ toString year
  let (clogs, collection) ← combine_collections env start_date end_date
  if collection.length = 0 then
    .ok (log0 :: (clogs ++ ["No images found for year " ++ toString year ++ ". Skipping export."]), [])
  else
    let median_image := (collectionMedian collection).select ["NDVI"]
    let composite_clipped := median_image.clip REGION
    let file_prefix := "NDVI_" ++ toString year ++ "_Albemarle"
    let task : ExportTask :=
      { image := composite_clipped
        description := file_prefix
        folder := DRIVE_FOLDER
        fileNamePrefix := file_prefix
        region := REGION.coordinates
        scale := SCALE
        crs := CRS
        maxPixels := 10 ^ 13 }
    match env.start task with
    | .ok _ =>
      .ok (log0 :: (clogs ++ ["Export to Google Drive started for year " ++ toString year ++ "."]), [task])
    | .error e =>
      .ok (log0 :: (clogs ++ ["Failed to start export for year " ++ toString year ++ ": " ++ e.msg]), [task])

/-- The loop body of the script's `main()`: per year, the pre-1984
guard, the (unused) per-year sensor-selection computation, and the call
to `export_ndvi`. -/
def mainLoop (env : Env) : List Nat → Except PyErr (List String × List ExportTask)
  | [] => .ok ([], [])
  | y :: rest => do
    let head ←
      if y < 1984 then
        (.ok (["Year " ++ toString y ++ " is before Landsat 5 availability. Skipping."], []) :
          Except PyErr (List String × List ExportTask))
      else
        let sensors :=
          if y ≤ 2012 then ["LANDSAT_5"]
          else if y ≤ 2013 then ["LANDSAT_5", "LANDSAT_7"]
          else ["LANDSAT_7", "LANDSAT_8"]
        let _ := sensors
        export_ndvi env y
    let tail ← mainLoop env rest
    .ok (head.1 ++ tail.1, head.2 ++ tail.2)

/-- The script's `main()`: the start banner, the loop over
`START_YEARS`, and the closing message.  (Named `main_fn` because Lean
reserves `main` for executable entry points.) -/
def main_fn (env : Env) : Except PyErr (List String × List ExportTask) := do
  let body ← mainLoop env START_YEARS
  .ok ("Starting NDVI export script..." ::
    (body.1 ++ ["All exports have been triggered. Check your GEE Tasks panel or monitor logs."]),
    body.2)

-- -------------------- helper definitions for the statements --------------------

/-- The pure value `mask_clouds` produces once the sensor's band
record has been resolved. -/
def maskCore (sb : BandNames) (image : EEImage) : EEImage :=
  image.updateMask ((((image.select [sb.qa]).bitwiseAnd (1 <<< 3)).eq 0).And
                    (((image.select [sb.qa]).bitwiseAnd (1 <<< 5)).eq 0))

/-- The pure value `add_ndvi` produces once the sensor's band record
has been resolved. -/
def addCore (sb : BandNames) (image : EEImage) : EEImage :=
  image.addBands ((image.normalizedDifference [sb.nir, sb.red]).rename ["NDVI"])

/-- The per-sensor contribution (logs, collection) as the combiner sees
it; defined for statements, meaningful because `get_landsat_collection`
never fails on a configured sensor key. -/
def sensorResult (env : Env) (k s e : String) : List String × List EEImage :=
  match get_landsat_collection env k s e with
  | .ok p => p
  | .error _ => ([], [])

/-- The export tasks whose start the driver requests for a year. -/
def yearTasks (env : Env) (y : Nat) : List ExportTask :=
  match export_ndvi env y with
  | .ok p => p.2
  | .error _ => []

/-- The environment with every remote collection already restricted to
an inclusive date range; used to state that the pipeline only ever
looks at images inside the range it filters to. -/
def restrictEnv (env : Env) (s e : String) : Env :=
  { env with fetch := fun cid => (env.fetch cid).map (fun coll => coll.filter (inDateRange s e)) }

/-- Spec-side variant of the main loop body, following the spec's
description that the per-year sensor-selection computation is inert: it
is the loop with that computation removed, used to state that the run's
output is identical with or without it. -/
def mainLoopNoSelection (env : Env) : List Nat → Except PyErr (List String × List ExportTask)
  | [] => .ok ([], [])
  | y :: rest => do
    let head ←
      if y < 1984 then
        (.ok (["Year " ++ toString y ++ " is before Landsat 5 availability. Skipping."], []) :
          Except PyErr (List String × List ExportTask))
      else
        export_ndvi env y
    let tail ← mainLoopNoSelection env rest
    .ok (head.1 ++ tail.1, head.2 ++ tail.2)

/-- Spec-side variant of `main()` built on `mainLoopNoSelection`. -/
def main_fn_no_selection (env : Env) : Except PyErr (List String × List ExportTask) := do
  let body ← mainLoopNoSelection env START_YEARS
  .ok ("Starting NDVI export script..." ::
    (body.1 ++ ["All exports have been triggered. Check your GEE Tasks panel or monitor logs."]),
    body.2)

/-- An environment in which every remote collection is empty and every
task start succeeds. -/
def envEmpty : Env := { fetch := fun _ => .ok [], start := fun _ => .ok () }

/-- An environment in which every remote fetch raises. -/
def envFail : Env :=
  { fetch := fun _ => .error (.exc "service unavailable"), start := fun _ => .ok () }

/-- A concrete cloud-free Landsat 5 image used to exercise the
pipeline: reflectance bands and a clear quality-assurance value. -/
def imgW : EEImage :=
  { date := "1990-06-15"
    bands := [("SR_B4", 4), ("SR_B3", 2), ("QA_PIXEL", 0)]
    vis := true
    footprint := none }

/-- An environment in which the Landsat 5 collection holds exactly
`imgW` and the other collections are empty. -/
def envOne : Env :=
  { fetch := fun cid => if cid = "LANDSAT/LT05/C02/T1_L2" then .ok [imgW] else .ok []
    start := fun _ => .ok () }

/-- The Landsat 5 band-name record, for concrete instantiations. -/
def sb5 : BandNames := { nir := "SR_B4", red := "SR_B3", qa := "QA_PIXEL" }

/-- A concrete image whose quality-assurance value has the cloud bit
(bit 5) set. -/
def imgQ : EEImage :=
  { date := "1990-06-15", bands := [("QA_PIXEL", 32)], vis := true, footprint := none }

/-- A concrete image carrying only reflectance bands. -/
def imgN : EEImage :=
  { date := "1990-06-15", bands := [("SR_B4", 4), ("SR_B3", 2)], vis := true, footprint := none }

/-- The logs of combining the three sensors' collections in `envOne`
for the year 1990. -/
def combLogsP : List String :=
  (sensorResult envOne "LANDSAT_5" (toString 1990 ++ "-01-01") (toString 1990 ++ "-12-31")).1 ++
    ((sensorResult envOne "LANDSAT_7" (toString 1990 ++ "-01-01") (toString 1990 ++ "-12-31")).1 ++
     (sensorResult envOne "LANDSAT_8" (toString 1990 ++ "-01-01") (toString 1990 ++ "-12-31")).1)

/-- The combined collection obtained in `envOne` for the year 1990:
the masked, NDVI-tagged `imgW` contributed by Landsat 5 alone. -/
def combP : List EEImage :=
  (sensorResult envOne "LANDSAT_5" (toString 1990 ++ "-01-01") (toString 1990 ++ "-12-31")).2 ++
    ((sensorResult envOne "LANDSAT_7" (toString 1990 ++ "-01-01") (toString 1990 ++ "-12-31")).2 ++
     (sensorResult envOne "LANDSAT_8" (toString 1990 ++ "-01-01") (toString 1990 ++ "-12-31")).2)

-- -------------------- basic lemmas --------------------

lemma strLeB_iff (a b : String) : strLeB a b = true ↔ a ≤ b := by
  simp [strLeB, String.le_iff_toList_le]

lemma exceptBind_ok {α β : Type} (a : α) (f : α → Except PyErr β) :
    (Except.ok a >>= f) = f a := rfl

lemma mask_clouds_eq (image : EEImage) (k : String) (sb : BandNames)
    (hb : dictLookup SENSOR_BANDS k = .ok sb) :
    mask_clouds image k = .ok (maskCore sb image) := by
  unfold mask_clouds maskCore
  rw [hb]
  rfl

lemma add_ndvi_eq (image : EEImage) (k : String) (sb : BandNames)
    (hb : dictLookup SENSOR_BANDS k = .ok sb) :
    add_ndvi image k = .ok (addCore sb image) := by
  unfold add_ndvi addCore
  rw [hb]
  rfl

lemma collMapE_ok (f : EEImage → Except PyErr EEImage) (g : EEImage → EEImage)
    (h : ∀ a, f a = .ok (g a)) : ∀ l, collMapE f l = .ok (l.map g) := by
  intro l
  induction l with
  | nil => rfl
  | cons a l ih =>
    show (f a >>= fun img' => collMapE f l >>= fun rest' => .ok (img' :: rest')) = _
    rw [h a, exceptBind_ok, ih, exceptBind_ok]
    rfl

lemma get_landsat_eq (env : Env) (k cid : String) (sb : BandNames) (s e : String)
    (hc : dictLookup LANDSAT_COLLECTIONS k = .ok cid)
    (hb : dictLookup SENSOR_BANDS k = .ok sb) :
    get_landsat_collection env k s e =
      match env.fetch cid with
      | .ok coll => .ok ([], ((dateFilter coll s e).map (maskCore sb)).map (addCore sb))
      | .error err =>
        .ok (["Error fetching collection " ++ k ++ " for dates " ++ s ++ " to " ++ e ++
              ": " ++ PyErr.msg err], []) := by
  unfold get_landsat_collection fetchPipeline
  rw [hc, exceptBind_ok]
  have hm := collMapE_ok _ _ (fun a => mask_clouds_eq a k sb hb)
  have ha := collMapE_ok _ _ (fun a => add_ndvi_eq a k sb hb)
  cases hf : env.fetch cid with
  | error err => rfl
  | ok coll => simp only [exceptBind_ok, hm, ha]

lemma get_ok_of (env : Env) (k cid : String) (sb : BandNames) (s e : String)
    (hc : dictLookup LANDSAT_COLLECTIONS k = .ok cid)
    (hb : dictLookup SENSOR_BANDS k = .ok sb) :
    get_landsat_collection env k s e = .ok (sensorResult env k s e) := by
  unfold sensorResult
  rw [get_landsat_eq env k cid sb s e hc hb]
  cases env.fetch cid <;> rfl

lemma key_cases (k : String) (hk : k ∈ LANDSAT_COLLECTIONS.map Prod.fst) :
    k = "LANDSAT_5" ∨ k = "LANDSAT_7" ∨ k = "LANDSAT_8" := by
  simpa [LANDSAT_COLLECTIONS] using hk

lemma get_ok (env : Env) (k s e : String) (hk : k ∈ LANDSAT_COLLECTIONS.map Prod.fst) :
    get_landsat_collection env k s e = .ok (sensorResult env k s e) := by
  rcases key_cases k hk with h | h | h <;> subst h
  · exact get_ok_of env _ _ _ s e rfl rfl
  · exact get_ok_of env _ _ _ s e rfl rfl
  · exact get_ok_of env _ _ _ s e rfl rfl

lemma combine_eq (env : Env) (s e : String) :
    combine_collections env s e =
      .ok ((sensorResult env "LANDSAT_5" s e).1 ++
             ((sensorResult env "LANDSAT_7" s e).1 ++ (sensorResult env "LANDSAT_8" s e).1),
           (sensorResult env "LANDSAT_5" s e).2 ++
             ((sensorResult env "LANDSAT_7" s e).2 ++ (sensorResult env "LANDSAT_8" s e).2)) := by
  have hkeys : LANDSAT_COLLECTIONS.map Prod.fst = ["LANDSAT_5", "LANDSAT_7", "LANDSAT_8"] := rfl
  unfold combine_collections
  rw [hkeys]
  show (combineLoop env s e ["LANDSAT_5", "LANDSAT_7", "LANDSAT_8"] ([], [])) = _
  unfold combineLoop
  rw [get_ok env "LANDSAT_5" s e (by decide), exceptBind_ok]
  unfold combineLoop
  rw [get_ok env "LANDSAT_7" s e (by decide), exceptBind_ok]
  unfold combineLoop
  rw [get_ok env "LANDSAT_8" s e (by decide), exceptBind_ok]
  unfold combineLoop
  simp [List.append_assoc]


lemma dateFilter_idem (coll : List EEImage) (s e : String) :
    dateFilter (coll.filter (inDateRange s e)) s e = dateFilter coll s e := by
  simp [dateFilter, List.filter_filter, Bool.and_self]

lemma get_restrict (env : Env) (k s e : String) :
    get_landsat_collection (restrictEnv env s e) k s e = get_landsat_collection env k s e := by
  unfold get_landsat_collection fetchPipeline
  cases hc : dictLookup LANDSAT_COLLECTIONS k with
  | error err => rfl
  | ok cid =>
    simp only [exceptBind_ok, restrictEnv]
    cases hf : env.fetch cid with
    | error err => simp [Except.map]
    | ok coll => simp [Except.map, exceptBind_ok, dateFilter_idem]

lemma combineLoop_restrict (env : Env) (s e : String) :
    ∀ (ks : List String) (acc : List String × List EEImage),
      combineLoop (restrictEnv env s e) s e ks acc = combineLoop env s e ks acc := by
  intro ks
  induction ks with
  | nil => intro acc; rfl
  | cons k ks ih =>
    intro acc
    simp only [combineLoop, get_restrict, ih]

lemma combine_restrict (env : Env) (s e : String) :
    combine_collections (restrictEnv env s e) s e = combine_collections env s e := by
  unfold combine_collections
  exact combineLoop_restrict env s e _ _

lemma export_restrict (env : Env) (y : Nat) :
    export_ndvi (restrictEnv env (toString y ++ "-01-01") (toString y ++ "-12-31")) y =
      export_ndvi env y := by
  unfold export_ndvi
  simp only [combine_restrict]
  simp only [restrictEnv]

lemma lookup_none_of_not_mem {α : Type} (d : List (String × α)) (k : String)
    (h : k ∉ d.map Prod.fst) : List.lookup k d = none := by
  induction d with
  | nil => rfl
  | cons p d ih =>
    simp only [List.map_cons, List.mem_cons, not_or] at h
    have hb : (k == p.1) = false := by simp [h.1]
    simp [List.lookup, hb, ih h.2]

lemma dictLookup_keyError {α : Type} (d : List (String × α)) (k : String)
    (h : k ∉ d.map Prod.fst) : dictLookup d k = .error (.keyError k) := by
  simp [dictLookup, lookup_none_of_not_mem d k h]

lemma mask_clouds_keyError (image : EEImage) (k : String)
    (h : k ∉ SENSOR_BANDS.map Prod.fst) :
    mask_clouds image k = .error (.keyError k) := by
  unfold mask_clouds
  rw [dictLookup_keyError _ _ h]
  rfl

lemma add_ndvi_keyError (image : EEImage) (k : String)
    (h : k ∉ SENSOR_BANDS.map Prod.fst) :
    add_ndvi image k = .error (.keyError k) := by
  unfold add_ndvi
  rw [dictLookup_keyError _ _ h]
  rfl

lemma get_keyError (env : Env) (k s e : String)
    (h : k ∉ LANDSAT_COLLECTIONS.map Prod.fst) :
    get_landsat_collection env k s e = .error (.keyError k) := by
  unfold get_landsat_collection
  rw [dictLookup_keyError _ _ h]
  rfl

lemma and_shift_ne_zero (n i : Nat) (h : n.testBit i = true) : n &&& (1 <<< i) ≠ 0 := by
  rw [Nat.shiftLeft_eq, one_mul, Nat.and_two_pow, h]
  simp only [Bool.toNat_true, one_mul]
  have h3 : 0 < 2 ^ i := Nat.pos_pow_of_pos i (by omega)
  omega

lemma bandValuesFor_cons_invisible (b : String) (img : EEImage) (coll : List EEImage)
    (h : img.vis = false) : bandValuesFor b (img :: coll) = bandValuesFor b coll := by
  simp [bandValuesFor, List.filterMap_cons, h]

lemma export_never_error (env : Env) (y : Nat) : ∃ out, export_ndvi env y = .ok out := by
  have hcomb := combine_eq env (toString y ++ "-01-01") (toString y ++ "-12-31")
  simp only [export_ndvi, hcomb, exceptBind_ok]
  split
  · exact ⟨_, rfl⟩
  · split <;> exact ⟨_, rfl⟩

lemma mainLoop_eq_noSelection (env : Env) : ∀ ys, mainLoop env ys = mainLoopNoSelection env ys := by
  intro ys
  induction ys with
  | nil => rfl
  | cons y ys ih =>
    simp only [mainLoop, mainLoopNoSelection, ih]

lemma yearTasks_eq (env : Env) (y : Nat) (out : List String × List ExportTask)
    (h : export_ndvi env y = .ok out) : yearTasks env y = out.2 := by
  simp [yearTasks, h]

lemma mainLoop_tasks (env : Env) :
    ∀ ys : List Nat, (∀ y ∈ ys, ¬ y < 1984) →
      ∃ logs, mainLoop env ys = .ok (logs, (ys.map (yearTasks env)).flatten) := by
  intro ys
  induction ys with
  | nil => exact fun _ => ⟨[], rfl⟩
  | cons y ys ih =>
    intro hys
    have hy : ¬ y < 1984 := hys y (by simp)
    obtain ⟨out, hout⟩ := export_never_error env y
    obtain ⟨ls, hls⟩ := ih (fun z hz => hys z (by simp [hz]))
    refine ⟨out.1 ++ ls, ?_⟩
    simp only [mainLoop, if_neg hy, hout, hls, exceptBind_ok, List.map_cons, List.flatten_cons,
      yearTasks_eq env y out hout]

lemma maskCore_eval (sb : BandNames) (image : EEImage) (n : Nat)
    (hqa : List.lookup sb.qa image.bands = some ((n : Nat) : ℚ)) :
    maskCore sb image =
      { image with
        vis := image.vis && (decide (n &&& (1 <<< 3) = 0) && decide (n &&& (1 <<< 5) = 0)) } := by
  unfold maskCore EEImage.select EEImage.bitwiseAnd EEImage.eq EEImage.And EEImage.updateMask
  simp only [hqa, ratBitwiseAnd, Rat.num_natCast, Int.toNat_natCast, List.filterMap_cons,
    List.filterMap_nil, Option.map_some, List.map_cons, List.map_nil, List.zipWith_cons_cons,
    List.zipWith_nil_right, List.all_cons, List.all_nil]
  by_cases h3 : n &&& (1 <<< 3) = 0 <;> by_cases h5 : n &&& (1 <<< 5) = 0 <;>
    simp [h3, h5]

-- -------------------- claim theorems --------------------

/-- C2: for every year whose combined collection has size zero, the
export driver logs a skip message and returns without constructing or
submitting any export task, so no output artifact is produced for that
year. -/
theorem empty_year_skipped (env : Env) (year : Nat) (logs : List String)
    (h : combine_collections env (toString year ++ "-01-01") (toString year ++ "-12-31") =
      .ok (logs, [])) :
    export_ndvi env year =
      .ok (("Processing year: " ++ toString year) ::
            (logs ++ ["No images found for year " ++ toString year ++ ". Skipping export."]),
           []) := by
  simp [export_ndvi, h, exceptBind_ok]

/-- C1: for every year whose combined collection is non-empty, the
export driver issues exactly one export submission, whose description
and fileNamePrefix are `NDVI_<year>_Albemarle`, whose scale is the
configured `SCALE` (30), whose crs is the configured `CRS`
(`EPSG:4326`), whose folder is the configured Drive folder, whose
region is the coordinates of the configured rectangle, and whose image
is the per-pixel median of the combined collection restricted to the
single band `NDVI` and clipped to the configured rectangle. -/
theorem export_submission_fields (env : Env) (year : Nat) (logs : List String)
    (comb : List EEImage)
    (h : combine_collections env (toString year ++ "-01-01") (toString year ++ "-12-31") =
      .ok (logs, comb))
    (hne : comb ≠ []) :
    (∃ ls, export_ndvi env year =
        .ok (ls,
          [{ image := ((collectionMedian comb).select ["NDVI"]).clip REGION
             description := "NDVI_" ++ toString year ++ "_Albemarle"
             folder := DRIVE_FOLDER
             fileNamePrefix := "NDVI_" ++ toString year ++ "_Albemarle"
             region := REGION.coordinates
             scale := SCALE
             crs := CRS
             maxPixels := 10 ^ 13 }])) ∧
      SCALE = 30 ∧ CRS = "EPSG:4326" ∧ DRIVE_FOLDER = "GEE_Exports" := by
  have hlen : ¬ (comb.length = 0) := by simpa [List.length_eq_zero] using hne
  refine ⟨?_, rfl, rfl, rfl⟩
  simp only [export_ndvi, h, exceptBind_ok]
  rw [if_neg hlen]
  split
  · exact ⟨_, rfl⟩
  · exact ⟨_, rfl⟩

/-- C3: for every image and every sensor key in the configured mapping,
the cloud mask selects that sensor's quality-assurance band, tests bit
3 (cloud shadow) and bit 5 (cloud) each for equality with zero,
combines the two tests with logical AND, and applies the result as a
visibility mask on the original image (bands unchanged); consequently
an image whose quality-assurance value has bit 3 or bit 5 set is
excluded from any later per-band median over a collection containing
it, rather than deleted. -/
theorem cloud_mask_bits (image : EEImage) (k : String) (sb : BandNames) (n : Nat)
    (hb : dictLookup SENSOR_BANDS k = .ok sb)
    (hqa : List.lookup sb.qa image.bands = some ((n : Nat) : ℚ)) :
    mask_clouds image k =
        .ok { image with
              vis := image.vis && (decide (n &&& (1 <<< 3) = 0) && decide (n &&& (1 <<< 5) = 0)) } ∧
      ((n.testBit 3 || n.testBit 5) = true →
        ∀ (coll : List EEImage) (b : String),
          medianBand b
              ({ image with
                 vis := image.vis &&
                   (decide (n &&& (1 <<< 3) = 0) && decide (n &&& (1 <<< 5) = 0)) } :: coll) =
            medianBand b coll) := by
  constructor
  · rw [mask_clouds_eq image k sb hb, maskCore_eval sb image n hqa]
  · intro hbit coll b
    have hvis : (image.vis && (decide (n &&& (1 <<< 3) = 0) && decide (n &&& (1 <<< 5) = 0))) =
        false := by
      have hor : n.testBit 3 = true ∨ n.testBit 5 = true := by simpa using hbit
      rcases hor with hset | hset
      · have h8 : n &&& 8 ≠ 0 := by simpa using and_shift_ne_zero n 3 hset
        simp [h8]
      · have h32 : n &&& 32 ≠ 0 := by simpa using and_shift_ne_zero n 5 hset
        simp [h32]
    unfold medianBand
    rw [bandValuesFor_cons_invisible _ _ _ (by simpa using hvis)]

/-- C4: for every sensor key in the configured mapping and every image
carrying the sensor's near-infrared and red bands, the NDVI operation
computes `(NIR - RED) / (NIR + RED)` from those configured band names,
names the resulting band `NDVI`, and returns the original image with
this band appended while retaining all original bands. -/
theorem ndvi_band_formula (image : EEImage) (k : String) (sb : BandNames) (nv rv : ℚ)
    (hb : dictLookup SENSOR_BANDS k = .ok sb)
    (hn : List.lookup sb.nir image.bands = some nv)
    (hr : List.lookup sb.red image.bands = some rv) :
    add_ndvi image k =
      .ok { image with bands := image.bands ++ [("NDVI", (nv - rv) / (nv + rv))] } := by
  rw [add_ndvi_eq image k sb hb]
  unfold addCore EEImage.normalizedDifference EEImage.rename EEImage.addBands
  simp [hn, hr]

/-- C5: the export driver fixes the date range to calendar-year
boundaries, January 1 through December 31 of the year; the date filter
retains exactly the images whose dates lie in the inclusive range, and
restricting the remote collections to that inclusive year range does
not change the driver's behaviour — the pipeline filters to exactly
that range. -/
theorem calendar_year_range :
    (∀ (coll : List EEImage) (s e : String) (img : EEImage),
        img ∈ dateFilter coll s e ↔ img ∈ coll ∧ s ≤ img.date ∧ img.date ≤ e) ∧
      ∀ (env : Env) (y : Nat),
        export_ndvi (restrictEnv env (toString y ++ "-01-01") (toString y ++ "-12-31")) y =
          export_ndvi env y := by
  constructor
  · intro coll s e img
    simp [dateFilter, inDateRange, List.mem_filter, Bool.and_eq_true, strLeB_iff, and_assoc]
  · exact export_restrict

/-- C6: the per-year sensor subset computed by the top-level driver is
never passed to the export driver and has no effect: the run's output
equals that of the spec-side variant without the computation, and the
export path's collection combination queries all three configured
sensors for every year regardless. -/
theorem sensor_selection_inert :
    (∀ env : Env, main_fn env = main_fn_no_selection env) ∧
      ∀ (env : Env) (y : Nat),
        combine_collections env (toString y ++ "-01-01") (toString y ++ "-12-31") =
          .ok ((sensorResult env "LANDSAT_5" (toString y ++ "-01-01") (toString y ++ "-12-31")).1 ++
                ((sensorResult env "LANDSAT_7" (toString y ++ "-01-01") (toString y ++ "-12-31")).1 ++
                 (sensorResult env "LANDSAT_8" (toString y ++ "-01-01") (toString y ++ "-12-31")).1),
               (sensorResult env "LANDSAT_5" (toString y ++ "-01-01") (toString y ++ "-12-31")).2 ++
                ((sensorResult env "LANDSAT_7" (toString y ++ "-01-01") (toString y ++ "-12-31")).2 ++
                 (sensorResult env "LANDSAT_8" (toString y ++ "-01-01") (toString y ++ "-12-31")).2)) := by
  constructor
  · intro env
    unfold main_fn main_fn_no_selection
    rw [mainLoop_eq_noSelection env START_YEARS]
  · intro env y
    exact combine_eq env _ _

/-- C7: for every sensor key in the configured mapping and every date
range, the per-sensor fetch never raises: it always returns a
collection, and when the remote fetch inside the pipeline raises, the
exception is caught, logged, and an empty collection is returned in its
place. -/
theorem sensor_fetch_failure_isolated (env : Env) (k s e : String)
    (hk : k ∈ LANDSAT_COLLECTIONS.map Prod.fst) :
    (∃ out, get_landsat_collection env k s e = .ok out) ∧
      ∀ (cid : String) (err : PyErr),
        dictLookup LANDSAT_COLLECTIONS k = .ok cid →
        env.fetch cid = .error err →
        get_landsat_collection env k s e =
          .ok (["Error fetching collection " ++ k ++ " for dates " ++ s ++ " to " ++ e ++
                ": " ++ PyErr.msg err], []) := by
  refine ⟨⟨_, get_ok env k s e hk⟩, ?_⟩
  intro cid err hc hf
  rcases key_cases k hk with h | h | h <;> subst h
  · rw [get_landsat_eq env "LANDSAT_5" cid ⟨"SR_B4", "SR_B3", "QA_PIXEL"⟩ s e hc rfl]
    simp [hf]
  · rw [get_landsat_eq env "LANDSAT_7" cid ⟨"SR_B4", "SR_B3", "QA_PIXEL"⟩ s e hc rfl]
    simp [hf]
  · rw [get_landsat_eq env "LANDSAT_8" cid ⟨"SR_B5", "SR_B4", "QA_PIXEL"⟩ s e hc rfl]
    simp [hf]

/-- C8: for every environment, the export driver never propagates an
exception (a task-start failure is caught and logged inside it), and
the top-level loop completes over every configured year, its submitted
tasks being exactly the concatenation of each configured year's
tasks. -/
theorem export_failure_isolated (env : Env) :
    (∀ y : Nat, ∃ out, export_ndvi env y = .ok out) ∧
      ∃ logs, main_fn env = .ok (logs, (START_YEARS.map (yearTasks env)).flatten) := by
  refine ⟨fun y => export_never_error env y, ?_⟩
  obtain ⟨ls, hls⟩ := mainLoop_tasks env START_YEARS (by decide)
  refine ⟨"Starting NDVI export script..." ::
    (ls ++ ["All exports have been triggered. Check your GEE Tasks panel or monitor logs."]), ?_⟩
  simp only [main_fn, hls, exceptBind_ok]

/-- C9: for every date range, the collection combiner queries each of
the three configured sensors once and merges their results starting
from the empty collection, never raising; when all three sensors
contribute empty collections the combined collection has size zero. -/
theorem combiner_total (env : Env) (s e : String) :
    combine_collections env s e =
        .ok ((sensorResult env "LANDSAT_5" s e).1 ++
              ((sensorResult env "LANDSAT_7" s e).1 ++ (sensorResult env "LANDSAT_8" s e).1),
             (sensorResult env "LANDSAT_5" s e).2 ++
              ((sensorResult env "LANDSAT_7" s e).2 ++ (sensorResult env "LANDSAT_8" s e).2)) ∧
      ((∀ k ∈ LANDSAT_COLLECTIONS.map Prod.fst, (sensorResult env k s e).2 = []) →
        ∃ logs, combine_collections env s e = .ok (logs, [])) := by
  refine ⟨combine_eq env s e, fun hall => ?_⟩
  have h5 := hall "LANDSAT_5" (by decide)
  have h7 := hall "LANDSAT_7" (by decide)
  have h8 := hall "LANDSAT_8" (by decide)
  exact ⟨(sensorResult env "LANDSAT_5" s e).1 ++
          ((sensorResult env "LANDSAT_7" s e).1 ++ (sensorResult env "LANDSAT_8" s e).1),
         by rw [combine_eq env s e, h5, h7, h8]; rfl⟩

/-- C10: the sensor-key dictionary lookups are unguarded: every key of
the three-key configured mappings resolves (and the cloud mask and NDVI
operations succeed on it), while any key outside the mappings makes the
cloud mask and the NDVI computation raise `KeyError`, and makes the
per-sensor fetch raise `KeyError` too — its collection-identifier
lookup precedes the `try` block, so the error is not converted into an
empty collection but propagates to the caller. -/
theorem unguarded_key_lookups :
    (∀ k, k ∈ LANDSAT_COLLECTIONS.map Prod.fst →
        (∃ cid, dictLookup LANDSAT_COLLECTIONS k = .ok cid) ∧
        (∃ sb, dictLookup SENSOR_BANDS k = .ok sb) ∧
        (∀ image : EEImage, ∃ m, mask_clouds image k = .ok m) ∧
        (∀ image : EEImage, ∃ a, add_ndvi image k = .ok a)) ∧
      (∀ k, k ∉ SENSOR_BANDS.map Prod.fst →
        (∀ image : EEImage, mask_clouds image k = .error (.keyError k)) ∧
        (∀ image : EEImage, add_ndvi image k = .error (.keyError k))) ∧
      ∀ k, k ∉ LANDSAT_COLLECTIONS.map Prod.fst →
        ∀ (env : Env) (s e : String),
          get_landsat_collection env k s e = .error (.keyError k) := by
  refine ⟨?_, ?_, ?_⟩
  · intro k hk
    rcases key_cases k hk with h | h | h <;> subst h <;>
      exact ⟨⟨_, rfl⟩, ⟨_, rfl⟩, fun image => ⟨_, mask_clouds_eq image _ _ rfl⟩,
             fun image => ⟨_, add_ndvi_eq image _ _ rfl⟩⟩
  · intro k hk
    exact ⟨fun image => mask_clouds_keyError image k hk,
           fun image => add_ndvi_keyError image k hk⟩
  · intro k hk env s e
    exact get_keyError env k s e hk

-- -------------------- witnesses --------------------

/-- Witness for C2 at a concrete input: the all-empty environment makes
1985's combined collection empty and the driver skips the export. -/
theorem empty_year_skipped_witness :
    combine_collections envEmpty (toString 1985 ++ "-01-01") (toString 1985 ++ "-12-31") =
        .ok ([], []) ∧
      export_ndvi envEmpty 1985 =
        .ok (("Processing year: " ++ toString 1985) ::
              ([] ++ ["No images found for year " ++ toString 1985 ++ ". Skipping export."]),
             []) :=
  ⟨by decide, empty_year_skipped envEmpty 1985 [] (by decide)⟩

/-- Witness for C1 at a concrete input: an environment holding one
clear Landsat 5 image for 1990 yields exactly one export submission
with the configured parameters. -/
theorem export_submission_fields_witness :
    (combine_collections envOne (toString 1990 ++ "-01-01") (toString 1990 ++ "-12-31") =
        .ok (combLogsP, combP) ∧ combP ≠ []) ∧
      ((∃ ls, export_ndvi envOne 1990 =
          .ok (ls,
            [{ image := ((collectionMedian combP).select ["NDVI"]).clip REGION
               description := "NDVI_" ++ toString 1990 ++ "_Albemarle"
               folder := DRIVE_FOLDER
               fileNamePrefix := "NDVI_" ++ toString 1990 ++ "_Albemarle"
               region := REGION.coordinates
               scale := SCALE
               crs := CRS
               maxPixels := 10 ^ 13 }])) ∧
        SCALE = 30 ∧ CRS = "EPSG:4326" ∧ DRIVE_FOLDER = "GEE_Exports") :=
  ⟨⟨combine_eq envOne (toString 1990 ++ "-01-01") (toString 1990 ++ "-12-31"), by decide⟩,
   export_submission_fields envOne 1990 combLogsP combP
     (combine_eq envOne (toString 1990 ++ "-01-01") (toString 1990 ++ "-12-31")) (by decide)⟩

/-- Witness for C3 at a concrete input: a pixel whose quality-assurance
value is 32 (cloud bit set) is masked and drops out of the median. -/
theorem cloud_mask_bits_witness :
    (dictLookup SENSOR_BANDS "LANDSAT_5" = .ok sb5 ∧
        List.lookup sb5.qa imgQ.bands = some ((32 : Nat) : ℚ)) ∧
      (mask_clouds imgQ "LANDSAT_5" =
          .ok { imgQ with
                vis := imgQ.vis &&
                  (decide ((32 : Nat) &&& (1 <<< 3) = 0) && decide ((32 : Nat) &&& (1 <<< 5) = 0)) } ∧
        (((32 : Nat).testBit 3 || (32 : Nat).testBit 5) = true →
          ∀ (coll : List EEImage) (b : String),
            medianBand b
                ({ imgQ with
                   vis := imgQ.vis &&
                     (decide ((32 : Nat) &&& (1 <<< 3) = 0) &&
                      decide ((32 : Nat) &&& (1 <<< 5) = 0)) } :: coll) =
              medianBand b coll)) :=
  ⟨⟨by decide, by decide⟩, cloud_mask_bits imgQ "LANDSAT_5" sb5 32 (by decide) (by decide)⟩

/-- Witness for C4 at a concrete input: NIR 4 and RED 2 yield an
appended NDVI band of value 1/3. -/
theorem ndvi_band_formula_witness :
    (dictLookup SENSOR_BANDS "LANDSAT_5" = .ok sb5 ∧
        List.lookup sb5.nir imgN.bands = some 4 ∧
        List.lookup sb5.red imgN.bands = some 2) ∧
      add_ndvi imgN "LANDSAT_5" =
        .ok { imgN with bands := imgN.bands ++ [("NDVI", ((4 : ℚ) - 2) / ((4 : ℚ) + 2))] } :=
  ⟨⟨by decide, by decide, by decide⟩,
   ndvi_band_formula imgN "LANDSAT_5" sb5 4 2 (by decide) (by decide) (by decide)⟩

/-- Witness for C7 at a concrete input: with every remote fetch
raising, the Landsat 5 fetch still returns, substituting a logged empty
collection. -/
theorem sensor_fetch_failure_isolated_witness :
    ("LANDSAT_5" ∈ LANDSAT_COLLECTIONS.map Prod.fst) ∧
      ((∃ out, get_landsat_collection envFail "LANDSAT_5" "a" "b" = .ok out) ∧
        ∀ (cid : String) (err : PyErr),
          dictLookup LANDSAT_COLLECTIONS "LANDSAT_5" = .ok cid →
          envFail.fetch cid = .error err →
          get_landsat_collection envFail "LANDSAT_5" "a" "b" =
            .ok (["Error fetching collection " ++ "LANDSAT_5" ++ " for dates " ++ "a" ++
                  " to " ++ "b" ++ ": " ++ PyErr.msg err], [])) :=
  ⟨by decide, sensor_fetch_failure_isolated envFail "LANDSAT_5" "a" "b" (by decide)⟩

/-- Witness for C9 at a concrete input: in the all-empty environment
every sensor contributes an empty collection and the combined
collection has size zero. -/
theorem combiner_total_witness :
    (∀ k ∈ LANDSAT_COLLECTIONS.map Prod.fst, (sensorResult envEmpty k "a" "b").2 = []) ∧
      ∃ logs, combine_collections envEmpty "a" "b" = .ok (logs, []) :=
  ⟨by decide, (combiner_total envEmpty "a" "b").2 (by decide)⟩

/-- Witness for C10 at concrete inputs: the configured key `LANDSAT_5`
resolves everywhere, while the unconfigured key `LANDSAT_9` raises
`KeyError` from the cloud mask, the NDVI computation, and the
per-sensor fetch. -/
theorem unguarded_key_lookups_witness :
    ("LANDSAT_5" ∈ LANDSAT_COLLECTIONS.map Prod.fst ∧
        ((∃ cid, dictLookup LANDSAT_COLLECTIONS "LANDSAT_5" = .ok cid) ∧
         (∃ sb, dictLookup SENSOR_BANDS "LANDSAT_5" = .ok sb) ∧
         (∀ image : EEImage, ∃ m, mask_clouds image "LANDSAT_5" = .ok m) ∧
         (∀ image : EEImage, ∃ a, add_ndvi image "LANDSAT_5" = .ok a))) ∧
      ("LANDSAT_9" ∉ SENSOR_BANDS.map Prod.fst ∧
        ((∀ image : EEImage, mask_clouds image "LANDSAT_9" = .error (.keyError "LANDSAT_9")) ∧
         ∀ image : EEImage, add_ndvi image "LANDSAT_9" = .error (.keyError "LANDSAT_9"))) ∧
      ("LANDSAT_9" ∉ LANDSAT_COLLECTIONS.map Prod.fst ∧
        ∀ (env : Env) (s e : String),
          get_landsat_collection env "LANDSAT_9" s e = .error (.keyError "LANDSAT_9")) :=
  ⟨⟨by decide, unguarded_key_lookups.1 "LANDSAT_5" (by decide)⟩,
   ⟨by decide, unguarded_key_lookups.2.1 "LANDSAT_9" (by decide)⟩,
   ⟨by decide, unguarded_key_lookups.2.2 "LANDSAT_9" (by decide)⟩⟩
